import Mathlib

/-!
Shallow embedding of `src/main.py` of the stock-notifier repository.

The program is a scheduled polling-and-notify job: a time gate
(`is_trading_time`), a remote key-value state client (`get_kv_state`,
`set_kv_state`), two source fetchers (`get_shanghai_stocks`,
`get_shenzhen_stocks`), a webhook notifier (`send_wecom_message`) and an
orchestrator (`main`).

Network and parsing effects are modelled as explicit outcome values
supplied by an environment (`Env`): each fallible body is an
`Except String` value (an exception carries its text), and the Python
`try/except` structure becomes `pyTry`.  The orchestrator is a pure
function from the remote stored value and the environment to a
`RunOutcome` recording the externally visible events of the run, the
remote stored value afterwards, and whether the notifier reported
success.  Time is passed in as the Python `weekday()` number
(0 = Monday .. 6 = Sunday) and the time of day in microseconds, matching
Python `datetime.time` comparison granularity.
-/

namespace StockNotifier

/-- One parsed new-listing announcement, as built by the fetchers
(`title`, `url`, `exchange` keys of the Python dict). -/
structure ListingRecord where
  title : String
  url : String
  exchange : String
deriving DecidableEq

/-- Python `try body except e: handler(e)`: evaluate the fallible body;
an exception is caught and mapped to a normal value. -/
def pyTry {α : Type} (body : Except String α) (handler : String → α) : α :=
  match body with
  | Except.ok a => a
  | Except.error e => handler e

/-- Fetcher for the Shanghai exchange (`get_shanghai_stocks`): the whole
body — HTTP GET, HTML parsing, filtering — is wrapped in `try`; its
outcome (the parsed record list, or an exception) is supplied by the
environment, and any exception yields the empty list. -/
def get_shanghai_stocks (net : Except String (List ListingRecord)) : List ListingRecord :=
  pyTry net (fun _ => [])

/-- Fetcher for the Shenzhen exchange (`get_shenzhen_stocks`): same
`try`-wrapped structure as the Shanghai fetcher. -/
def get_shenzhen_stocks (net : Except String (List ListingRecord)) : List ListingRecord :=
  pyTry net (fun _ => [])

/-- Webhook JSON response body: the `errcode` and `errmsg` fields, each
possibly absent (`dict.get` returns `None` then). -/
structure WecomResp where
  errcode : Option Int
  errmsg : Option String
deriving DecidableEq

/-- Python string interpolation of a value that may be `None`. -/
def pyOptStr : Option String → String
  | some s => s
  | none => "None"

/-- One numbered markdown line of the notification body:
`f"{idx}. **{exchange}** [{title}]({url})\n"`. -/
def markdownItem (idx : Nat) (stock : ListingRecord) : String :=
  toString idx ++ ". **" ++ stock.exchange ++ "** [" ++ stock.title ++ "](" ++
    stock.url ++ ")\n"

/-- The full markdown body built by `send_wecom_message`: a title line
followed by one line per record, numbered from 1. -/
def markdownContent (stocks : List ListingRecord) : String :=
  "## 📈 今日新股认购提醒\n\n" ++
    String.join ((stocks.enumFrom 1).map (fun p => markdownItem p.1 p.2))

/-- The `try` body of `send_wecom_message`: POST the payload (the HTTP
and JSON-decoding outcome is supplied by the environment), then branch
on the `errcode` field. -/
def send_wecom_body (net : Except String WecomResp) : Except String (Bool × String) :=
  match net with
  | Except.error e => Except.error e
  | Except.ok result =>
    if result.errcode = some 0 then Except.ok (true, "推送成功")
    else Except.ok (false, "企业微信错误: " ++ pyOptStr result.errmsg)

/-- The notifier (`send_wecom_message`): empty input returns failure
with the fixed no-data message before any HTTP activity; otherwise the
`try`-wrapped POST result is interpreted, and an exception becomes a
failure carrying the exception text. -/
def send_wecom_message (stocks : List ListingRecord) (net : Except String WecomResp) :
    Bool × String :=
  if stocks.isEmpty then (false, "无新股数据")
  else pyTry (send_wecom_body net) (fun e => (false, "推送失败: " ++ e))

/-- HTTP activity of one `send_wecom_message` call: the empty-list early
return performs no call; otherwise exactly one POST of the built
markdown body. -/
def send_wecom_posts (stocks : List ListingRecord) : List String :=
  if stocks.isEmpty then [] else [markdownContent stocks]

/-- Body of a completed state-store GET response: either JSON that
parses, carrying the optional `last_sent_date` field, or a body on which
`resp.json()` raises. -/
inductive KvBody where
  | json : Option String → KvBody
  | invalid : KvBody
deriving DecidableEq

/-- Outcome of the state-store GET request: completed with a status code
and a body, or a transport exception. -/
inductive KvGetNet where
  | done : Nat → KvBody → KvGetNet
  | exc : String → KvGetNet
deriving DecidableEq

/-- State getter (`get_kv_state`): on a 200 response return the
`last_sent_date` field with default `""`; any other status, a JSON
decoding error, or a transport exception yields `""` (the bare
`except: pass` plus the trailing `return ""`). -/
def get_kv_state (net : KvGetNet) : String :=
  match net with
  | KvGetNet.done code body =>
    if code = 200 then
      match body with
      | KvBody.json (some s) => s
      | KvBody.json none => ""
      | KvBody.invalid => ""
    else ""
  | KvGetNet.exc _ => ""

/-- Outcome of the state-store PUT request: completed with a status
code, or a transport exception. -/
inductive KvPutNet where
  | done : Nat → KvPutNet
  | exc : String → KvPutNet
deriving DecidableEq

/-- State setter (`set_kv_state`): `requests.put` then `return True`;
the response status is never inspected, so any completed request yields
`true` and only a transport exception yields `false`. -/
def set_kv_state (_date : String) (net : KvPutNet) : Bool :=
  match net with
  | KvPutNet.done _ => true
  | KvPutNet.exc _ => false

/-- A success HTTP status in the usual 2xx sense, used to state the
spec's "successful confirmation" of the remote write. -/
def successStatus (code : Nat) : Prop :=
  200 ≤ code ∧ code < 300

instance (code : Nat) : Decidable (successStatus code) := by
  unfold successStatus; infer_instance

/-- Remote key-value store semantics (the store itself is an external
service, not code of this repository; modelled from §6 of the spec): a
PUT updates the stored value exactly when the server processed it and
reported a success status; a transport failure or an error status
leaves the stored value unchanged. -/
def applyKvPut (stored date : String) (net : KvPutNet) : String :=
  match net with
  | KvPutNet.done code => if successStatus code then date else stored
  | KvPutNet.exc _ => stored

/-- Behaviour of the state-store GET in one run: `healthy` is a 200
response whose JSON body reflects the currently stored value; `fault`
is any other outcome (wrong status, bad body, transport error),
independent of the stored value. -/
inductive KvGetBehavior where
  | healthy : KvGetBehavior
  | fault : KvGetNet → KvGetBehavior
deriving DecidableEq

/-- Resolve a GET behaviour against the currently stored value. -/
def resolveKvGet (stored : String) : KvGetBehavior → KvGetNet
  | KvGetBehavior.healthy => KvGetNet.done 200 (KvBody.json (some stored))
  | KvGetBehavior.fault n => n

/-- Microseconds since midnight of a time of day; Python `datetime.time`
values compare exactly like this number. -/
def microsOfDay (h m s us : Nat) : Nat :=
  ((h * 60 + m) * 60 + s) * 1000000 + us

/-- Time gate (`is_trading_time`): weekday is the Python `weekday()`
number (0 = Monday .. 6 = Sunday), `tod` the time of day in
microseconds.  Saturday and Sunday are rejected, then the two trading
windows are tested with inclusive comparisons against 09:30:00.000000,
11:30:00.000000, 13:00:00.000000 and 15:00:00.000000. -/
def is_trading_time (weekday : Nat) (tod : Nat) : Bool :=
  if weekday ≥ 5 then false
  else if microsOfDay 9 30 0 0 ≤ tod ∧ tod ≤ microsOfDay 11 30 0 0 then true
  else if microsOfDay 13 0 0 0 ≤ tod ∧ tod ≤ microsOfDay 15 0 0 0 then true
  else false

/-- Spec-side statement of the Time Gate contract, written from the
spec's words: weekday is Monday to Friday (Python numbers 0..4) and the
time of day lies in [09:30, 11:30] or in [13:00, 15:00], all four
endpoints included. -/
def tradingWindowSpec (weekday : Nat) (tod : Nat) : Prop :=
  weekday < 5 ∧
    ((microsOfDay 9 30 0 0 ≤ tod ∧ tod ≤ microsOfDay 11 30 0 0) ∨
     (microsOfDay 13 0 0 0 ≤ tod ∧ tod ≤ microsOfDay 15 0 0 0))

/-- Externally visible events of one orchestrator run, in order:
a state GET, a run of each fetcher, a webhook POST carrying the
delivered body, a state PUT carrying the written date. -/
inductive Event where
  | kvGet : Event
  | fetchSH : Event
  | fetchSZ : Event
  | notifyPost : String → Event
  | kvPut : String → Event
deriving DecidableEq

/-- Environment of one orchestrator run: the wall clock at the start,
today's date string, and the outcome of every network interaction the
run may perform. -/
structure Env where
  weekday : Nat
  tod : Nat
  today : String
  kvGet : KvGetBehavior
  shNet : Except String (List ListingRecord)
  szNet : Except String (List ListingRecord)
  wecomNet : Except String WecomResp
  kvPut : KvPutNet

/-- Result of one orchestrator run: the event trace, the remote stored
value after the run, and whether the notifier reported success. -/
structure RunOutcome where
  events : List Event
  stored : String
  sent : Bool
deriving DecidableEq

/-- The aggregate record list of one run: the concatenation of the two
fetchers' results, Shanghai first (`get_shanghai_stocks() +
get_shenzhen_stocks()`). -/
def aggregateStocks (env : Env) : List ListingRecord :=
  get_shanghai_stocks env.shNet ++ get_shenzhen_stocks env.szNet

/-- The orchestrator (`main`): gate on trading time; read the stored
state and stop if it already equals today; fetch and aggregate; stop on
an empty aggregate; send; on success write today's date to the store
(the boolean result of the write is ignored). -/
def main (stored : String) (env : Env) : RunOutcome :=
  if ¬ is_trading_time env.weekday env.tod then
    { events := [], stored := stored, sent := false }
  else if get_kv_state (resolveKvGet stored env.kvGet) = env.today then
    { events := [Event.kvGet], stored := stored, sent := false }
  else if (aggregateStocks env).isEmpty then
    { events := [Event.kvGet, Event.fetchSH, Event.fetchSZ], stored := stored, sent := false }
  else if (send_wecom_message (aggregateStocks env) env.wecomNet).1 then
    { events := [Event.kvGet, Event.fetchSH, Event.fetchSZ] ++
        ((send_wecom_posts (aggregateStocks env)).map Event.notifyPost) ++
        [Event.kvPut env.today],
      stored := applyKvPut stored env.today env.kvPut, sent := true }
  else
    { events := [Event.kvGet, Event.fetchSH, Event.fetchSZ] ++
        ((send_wecom_posts (aggregateStocks env)).map Event.notifyPost),
      stored := stored, sent := false }

/-- The orchestrator in the exception layer: the same control flow as
`main`, but with the result in the `Except` monad in which every
collaborator's fallible body lives; an exception escaping any
collaborator would surface here as `Except.error`.  Every collaborator
the orchestrator calls (`get_kv_state`, the two fetchers,
`send_wecom_message`, `set_kv_state`) is a total function that has
already caught its body's exceptions, so every branch is `Except.ok`. -/
def mainE (stored : String) (env : Env) : Except String RunOutcome :=
  if ¬ is_trading_time env.weekday env.tod then
    Except.ok { events := [], stored := stored, sent := false }
  else if get_kv_state (resolveKvGet stored env.kvGet) = env.today then
    Except.ok { events := [Event.kvGet], stored := stored, sent := false }
  else if (aggregateStocks env).isEmpty then
    Except.ok { events := [Event.kvGet, Event.fetchSH, Event.fetchSZ], stored := stored,
                sent := false }
  else if (send_wecom_message (aggregateStocks env) env.wecomNet).1 then
    Except.ok { events := [Event.kvGet, Event.fetchSH, Event.fetchSZ] ++
                  ((send_wecom_posts (aggregateStocks env)).map Event.notifyPost) ++
                  [Event.kvPut env.today],
                stored := applyKvPut stored env.today env.kvPut, sent := true }
  else
    Except.ok { events := [Event.kvGet, Event.fetchSH, Event.fetchSZ] ++
                  ((send_wecom_posts (aggregateStocks env)).map Event.notifyPost),
                stored := stored, sent := false }

/-- Process exit status of one invocation: 0 when the run returns
normally, 1 if an exception were to escape. -/
def processExit (stored : String) (env : Env) : Nat :=
  match mainE stored env with
  | Except.ok _ => 0
  | Except.error _ => 1

/-- A sequence of runs threaded through the same remote store: each run
reads the value left by the previous one. -/
def runAll (stored : String) : List Env → String
  | [] => stored
  | env :: rest => runAll (main stored env).stored rest

/-- A run performed no fetch and no webhook POST. -/
def noFetchOrSend (r : RunOutcome) : Prop :=
  Event.fetchSH ∉ r.events ∧ Event.fetchSZ ∉ r.events ∧
    ∀ e ∈ r.events, ∀ c, e ≠ Event.notifyPost c

/-- Whether a run performed a webhook POST. -/
def postedNotify (r : RunOutcome) : Bool :=
  r.events.any (fun e =>
    match e with
    | Event.notifyPost _ => true
    | _ => false)

/-- Sample Shanghai-exchange record for concrete runs. -/
def recSH : ListingRecord :=
  { title := "某公司首次公开发行股票上市公告书", url := "http://www.sse.com.cn/x.html",
    exchange := "上交所" }

/-- Sample Shenzhen-exchange record for concrete runs. -/
def recSZ : ListingRecord :=
  { title := "某公司创业板上市公告", url := "http://www.szse.cn/y.pdf", exchange := "深交所" }

/-- Webhook response reporting success. -/
def respOk : WecomResp := { errcode := some 0, errmsg := none }

/-- Webhook response reporting a rejected webhook (Scenario D of the spec). -/
def respBad : WecomResp := { errcode := some 93000, errmsg := some "invalid webhook" }

/-- Fault-free environment: a Monday at 10:00 (inside trading hours), a
healthy state store, both fetchers succeeding, a webhook that accepts
the message, a PUT confirmed with status 200. -/
def envHappy : Env :=
  { weekday := 0, tod := microsOfDay 10 0 0 0, today := "2024-05-01",
    kvGet := KvGetBehavior.healthy, shNet := Except.ok [recSH], szNet := Except.ok [recSZ],
    wecomNet := Except.ok respOk, kvPut := KvPutNet.done 200 }

/-- Same run, but the state-store GET fails in transport. -/
def envGetFails : Env := { envHappy with kvGet := KvGetBehavior.fault (KvGetNet.exc "timeout") }

/-- Same run, but the webhook rejects the message. -/
def envNotifyFails : Env := { envHappy with wecomNet := Except.ok respBad }

/-- Same run, but the state-store PUT fails in transport. -/
def envPutFails : Env := { envHappy with kvPut := KvPutNet.exc "timeout" }

/-- Same run, but the Shanghai fetcher raises while parsing. -/
def envShFails : Env := { envHappy with shNet := Except.error "parse error" }

/-- Same run, but one fetcher finds nothing and the other raises. -/
def envNoData : Env :=
  { envHappy with shNet := Except.ok [], szNet := Except.error "parse error" }

/-! ## Helper lemmas -/

/-- A healthy state-store GET returns exactly the stored value. -/
theorem get_kv_state_healthy (s : String) :
    get_kv_state (resolveKvGet s KvGetBehavior.healthy) = s := rfl

/-- One run either leaves the stored value unchanged or writes today's
date. -/
theorem main_stored_self_or_today (s : String) (env : Env) :
    (main s env).stored = s ∨ (main s env).stored = env.today := by
  unfold main
  split_ifs <;>
    first
      | (left; rfl)
      | (cases hp : env.kvPut with
          | done code =>
            by_cases hc : successStatus code
            · right; simp [applyKvPut, hp, hc]
            · left; simp [applyKvPut, hp, hc]
          | exc m => left; simp [applyKvPut, hp])

/-- A chain of runs that all happen on date `D` keeps a stored value of
`D` unchanged: no run ever writes anything except its own today. -/
theorem runAll_fixed (D : String) :
    ∀ later : List Env, (∀ e ∈ later, e.today = D) → runAll D later = D := by
  intro later
  induction later with
  | nil => intro _; rfl
  | cons a t ih =>
    intro h
    have ha : a.today = D := h a (List.mem_cons_self a t)
    have hmain : (main D a).stored = D := by
      rcases main_stored_self_or_today D a with hc | hc
      · exact hc
      · rw [hc, ha]
    show runAll (main D a).stored t = D
    rw [hmain]
    exact ih (fun e he => h e (List.mem_cons_of_mem a he))

/-! ## Claims -/

/-- Claim C3: the Time Gate returns true if and only if the weekday is
Monday through Friday (Python weekday numbers 0..4) and the time of day
lies in [09:30, 11:30] or [13:00, 15:00], all endpoints inclusive; it is
a pure total function of the wall clock. -/
theorem is_trading_time_iff_spec (weekday tod : Nat) :
    is_trading_time weekday tod = true ↔ tradingWindowSpec weekday tod := by
  unfold is_trading_time tradingWindowSpec microsOfDay
  split_ifs with h1 h2 h3 <;> simp_all

/-- Claim C5 counterexample: a PUT that completes with HTTP status 500 —
not a success status, so no successful confirmation of the write — still
makes `set_kv_state` return true, because the code never inspects the
response status. -/
theorem set_kv_state_cex :
    set_kv_state "2024-05-01" (KvPutNet.done 500) = true ∧ (successStatus 500 ↔ False) := by
  decide

/-- Claim C5 (amended): `set_kv_state` returns true iff the PUT request
completes without an exception, regardless of the response status; a
transport error or timeout is swallowed and reported as false, never
raised. -/
theorem set_kv_state_spec (date : String) (net : KvPutNet) :
    set_kv_state date net = true ↔ ∃ code, net = KvPutNet.done code := by
  cases net <;> simp [set_kv_state]

/-- Claim C4: the notifier always returns a `(success, message)` pair:
an empty record list yields failure with the fixed no-data message and
no HTTP POST; a non-empty list is posted exactly once, succeeds iff the
webhook's JSON response carries error code 0, and on a non-zero code or
a transport exception returns failure carrying the server message
respectively the exception text. -/
theorem send_wecom_message_spec (stocks : List ListingRecord)
    (net : Except String WecomResp) (r : WecomResp) (e : String) :
    (send_wecom_message [] net = (false, "无新股数据") ∧ send_wecom_posts [] = []) ∧
    (stocks ≠ [] → send_wecom_posts stocks = [markdownContent stocks]) ∧
    (stocks ≠ [] →
      ((send_wecom_message stocks net).1 = true ↔
        ∃ resp, net = Except.ok resp ∧ resp.errcode = some 0)) ∧
    (stocks ≠ [] → r.errcode = some 0 →
      send_wecom_message stocks (Except.ok r) = (true, "推送成功")) ∧
    (stocks ≠ [] → r.errcode ≠ some 0 →
      send_wecom_message stocks (Except.ok r) =
        (false, "企业微信错误: " ++ pyOptStr r.errmsg)) ∧
    (stocks ≠ [] →
      send_wecom_message stocks (Except.error e) = (false, "推送失败: " ++ e)) := by
  have hne : stocks ≠ [] → stocks.isEmpty = false := by
    cases stocks <;> simp
  refine ⟨⟨rfl, rfl⟩, ?_, ?_, ?_, ?_, ?_⟩
  · intro h
    simp [send_wecom_posts, hne h]
  · intro h
    cases net with
    | error e2 => simp [send_wecom_message, send_wecom_body, pyTry, hne h]
    | ok resp =>
      by_cases hc : resp.errcode = some 0 <;>
        simp [send_wecom_message, send_wecom_body, pyTry, hne h, hc]
  · intro h hc
    simp [send_wecom_message, send_wecom_body, pyTry, hne h, hc]
  · intro h hc
    simp [send_wecom_message, send_wecom_body, pyTry, hne h, hc]
  · intro h
    simp [send_wecom_message, send_wecom_body, pyTry, hne h]

/-- Claim C4 witness: the notifier evaluated on concrete inputs — a
success response, an empty list, a rejected webhook, and a transport
exception. -/
theorem send_wecom_message_spec_witness :
    send_wecom_message [recSH] (Except.ok respOk) = (true, "推送成功") ∧
    send_wecom_message [] (Except.ok respOk) = (false, "无新股数据") ∧
    send_wecom_message [recSH] (Except.ok respBad) =
      (false, "企业微信错误: " ++ pyOptStr respBad.errmsg) ∧
    send_wecom_message [recSH] (Except.error "timeout") = (false, "推送失败: " ++ "timeout") :=
  ⟨(send_wecom_message_spec [recSH] (Except.ok respOk) respOk "").2.2.2.1 (by decide) rfl,
   (send_wecom_message_spec [recSH] (Except.ok respOk) respOk "").1.1,
   (send_wecom_message_spec [recSH] (Except.ok respBad) respBad "").2.2.2.2.1 (by decide)
     (by decide),
   (send_wecom_message_spec [recSH] (Except.error "timeout") respOk "timeout").2.2.2.2.2
     (by decide)⟩

/-- Claim C9: with configuration present (the model presumes the three
environment variables were read at startup), every run returns normally
with exit status 0: the exception-layer orchestrator `mainE` yields
`Except.ok` of the ordinary run result for every environment, and each
collaborator maps an exception in its body to a plain value rather than
letting it escape. -/
theorem orchestrator_never_raises (stored : String) (env : Env) (d e : String)
    (stocks : List ListingRecord) :
    mainE stored env = Except.ok (main stored env) ∧
    processExit stored env = 0 ∧
    get_shanghai_stocks (Except.error e) = [] ∧
    get_shenzhen_stocks (Except.error e) = [] ∧
    get_kv_state (KvGetNet.exc e) = "" ∧
    set_kv_state d (KvPutNet.exc e) = false ∧
    (send_wecom_message stocks (Except.error e)).1 = false := by
  have hok : mainE stored env = Except.ok (main stored env) := by
    unfold mainE main
    split_ifs <;> rfl
  refine ⟨hok, ?_, rfl, rfl, rfl, rfl, ?_⟩
  · unfold processExit
    rw [hok]
  · cases stocks <;> simp [send_wecom_message, send_wecom_body, pyTry]

/-- Claim C2: when the gate passed and the state read returned exactly
today's date, the run terminates right after the state check: its only
external event is the state GET — zero fetch calls and zero notify
calls, state unchanged. -/
theorem already_sent_skips (stored : String) (env : Env)
    (hgate : is_trading_time env.weekday env.tod = true)
    (hread : get_kv_state (resolveKvGet stored env.kvGet) = env.today) :
    main stored env = { events := [Event.kvGet], stored := stored, sent := false } := by
  simp [main, hgate, hread]

/-- Claim C2 witness: with the store already holding today's date, the
concrete fault-free run stops after the state check. -/
theorem already_sent_skips_witness :
    main "2024-05-01" envHappy =
      { events := [Event.kvGet], stored := "2024-05-01", sent := false } :=
  already_sent_skips "2024-05-01" envHappy (by decide) (by decide)

/-- Claim C7: a run in which the notifier was invoked and reported
failure performs no state write: its events stop at the webhook POST
and the stored value is unchanged. -/
theorem notify_failure_no_state_write (stored : String) (env : Env)
    (hpost : postedNotify (main stored env) = true)
    (hfail : (main stored env).sent = false) :
    main stored env =
      { events := [Event.kvGet, Event.fetchSH, Event.fetchSZ,
                   Event.notifyPost (markdownContent (aggregateStocks env))],
        stored := stored, sent := false } := by
  by_cases h1 : is_trading_time env.weekday env.tod = true
  · by_cases h2 : get_kv_state (resolveKvGet stored env.kvGet) = env.today
    · simp [main, h1, h2] at hpost
      simp [postedNotify] at hpost
    · by_cases h3 : (aggregateStocks env).isEmpty = true
      · simp [main, h1, h2, h3] at hpost
        simp [postedNotify] at hpost
      · by_cases h4 : (send_wecom_message (aggregateStocks env) env.wecomNet).1 = true
        · simp [main, h1, h2, h3, h4] at hfail
        · have hne : (aggregateStocks env).isEmpty = false := by
            simp_all
          simp [main, h1, h2, h3, h4, send_wecom_posts, hne]
  · simp [main, h1] at hpost
    simp [postedNotify] at hpost

/-- Claim C7 witness: Scenario D — the webhook answers error code 93000
with message "invalid webhook"; the run posts, fails, and leaves the
stored value untouched. -/
theorem notify_failure_no_state_write_witness :
    main "" envNotifyFails =
      { events := [Event.kvGet, Event.fetchSH, Event.fetchSZ,
                   Event.notifyPost (markdownContent (aggregateStocks envNotifyFails))],
        stored := "", sent := false } :=
  notify_failure_no_state_write "" envNotifyFails (by decide) (by decide)

/-- Claim C8: a fetcher whose body raises contributes the empty list
instead of an exception; the aggregate is always the Shanghai result
followed by the Shenzhen result, so the sibling's records survive, and
a run that reaches the fetch stage still posts the sibling's records to
the webhook. -/
theorem fetcher_fault_isolation (stored : String) (env : Env) (e1 e2 : String)
    (l : List ListingRecord)
    (hsh : env.shNet = Except.error e1) (hsz : env.szNet = Except.ok l) :
    get_shanghai_stocks env.shNet = [] ∧
    get_shenzhen_stocks (Except.error e2) = [] ∧
    aggregateStocks env = l ∧
    (is_trading_time env.weekday env.tod = true →
      get_kv_state (resolveKvGet stored env.kvGet) ≠ env.today →
      l ≠ [] →
      Event.notifyPost (markdownContent l) ∈ (main stored env).events) := by
  have hagg : aggregateStocks env = l := by
    simp [aggregateStocks, hsh, hsz, get_shanghai_stocks, get_shenzhen_stocks, pyTry]
  refine ⟨by simp [get_shanghai_stocks, pyTry, hsh], rfl, hagg, ?_⟩
  intro hgate hread hne
  have hempty : (aggregateStocks env).isEmpty = false := by
    rw [hagg]
    cases l <;> simp_all
  unfold main
  simp only [hgate, hread, hempty, hagg]
  by_cases hs : (send_wecom_message l env.wecomNet).1 <;>
    simp [hs, send_wecom_posts, hempty, hagg, hne]

/-- Claim C8 witness: Scenario E — the Shanghai fetcher raises a parse
exception, the Shenzhen fetcher returns one record; the run still posts
that record's message. -/
theorem fetcher_fault_isolation_witness :
    get_shanghai_stocks envShFails.shNet = [] ∧
    aggregateStocks envShFails = [recSZ] ∧
    Event.notifyPost (markdownContent [recSZ]) ∈ (main "" envShFails).events := by
  have h := fetcher_fault_isolation "" envShFails "parse error" "x" [recSZ] rfl rfl
  exact ⟨h.1, h.2.2.1, h.2.2.2 (by decide) (by decide) (by decide)⟩

/-- Claim C10: a run that reaches the fetch stage and aggregates zero
records terminates right there: no webhook POST (not even a "no data"
notice) and no state write; the stored date is unchanged. -/
theorem empty_aggregate_skips_notify (stored : String) (env : Env)
    (hgate : is_trading_time env.weekday env.tod = true)
    (hread : get_kv_state (resolveKvGet stored env.kvGet) ≠ env.today)
    (hempty : aggregateStocks env = []) :
    main stored env = { events := [Event.kvGet, Event.fetchSH, Event.fetchSZ],
                        stored := stored, sent := false } := by
  simp [main, hgate, hread, hempty]

/-- Claim C10 witness: one fetcher finds nothing, the other raises; the
concrete run stops after fetching, with no POST and no write. -/
theorem empty_aggregate_skips_notify_witness :
    main "" envNoData = { events := [Event.kvGet, Event.fetchSH, Event.fetchSZ],
                          stored := "", sent := false } :=
  empty_aggregate_skips_notify "" envNoData (by decide) (by decide) (by decide)

/-- Claim C1 counterexample: a fault-free run on 2024-05-01 delivers
and records the date, yet a later run on the same date whose state GET
fails in transport reads `""`, fetches again and posts again — so the
claim's "no later run on date D fetches or sends again" does not hold
of the code for every run sequence. -/
theorem dedup_per_date_cex :
    envHappy.today = "2024-05-01" ∧
    envGetFails.today = "2024-05-01" ∧
    (main "" envHappy).sent = true ∧
    (main "" envHappy).stored = "2024-05-01" ∧
    Event.fetchSH ∈ (main (main "" envHappy).stored envGetFails).events ∧
    postedNotify (main (main "" envHappy).stored envGetFails) = true := by
  decide

/-- Claim C1 (amended): once a run on date D delivers successfully and
records D, every later run on date D whose state-store read succeeds
(returns the stored value) performs no fetch and no webhook POST;
intervening runs on date D never move the stored value away from D. -/
theorem dedup_per_date_amended (stored D : String) (env1 : Env) (later : List Env)
    (env2 : Env)
    (_h1 : env1.today = D)
    (_hsent : (main stored env1).sent = true)
    (hrec : (main stored env1).stored = D)
    (hlater : ∀ e ∈ later, e.today = D)
    (h2 : env2.today = D)
    (hok : env2.kvGet = KvGetBehavior.healthy) :
    noFetchOrSend (main (runAll (main stored env1).stored later) env2) := by
  have hfix : runAll (main stored env1).stored later = D := by
    rw [hrec]
    exact runAll_fixed D later hlater
  rw [hfix]
  have hget : get_kv_state (resolveKvGet D env2.kvGet) = env2.today := by
    rw [hok, get_kv_state_healthy, h2]
  by_cases hg : is_trading_time env2.weekday env2.tod = true
  · simp [main, hg, hget, noFetchOrSend]
  · simp [main, hg, noFetchOrSend]

/-- Claim C1 (amended) witness: after the fault-free run records
2024-05-01 and a faulty run on the same date intervenes, a healthy-read
run on 2024-05-01 neither fetches nor posts. -/
theorem dedup_per_date_amended_witness :
    noFetchOrSend (main (runAll (main "" envHappy).stored [envGetFails]) envHappy) :=
  dedup_per_date_amended "" "2024-05-01" envHappy [envGetFails] envHappy
    (by decide) (by decide) (by decide) (by decide) (by decide) (by decide)

/-- Claim C6 counterexample: the notifier reports success but the state
PUT fails in transport, so the store still holds the old value and a
subsequent healthy read returns `""`, not the date the orchestrator
tried to write. -/
theorem roundtrip_cex :
    (main "" envPutFails).sent = true ∧
    get_kv_state (resolveKvGet (main "" envPutFails).stored KvGetBehavior.healthy) = "" ∧
    (("" : String) = envPutFails.today ↔ False) := by
  decide

/-- Claim C6 (amended): when the notifier reports success and the state
PUT completes with a success status, a subsequent successful
getLastSentDate read returns exactly today's date, the value the
orchestrator wrote. -/
theorem roundtrip_amended (stored : String) (env : Env) (code : Nat)
    (hsent : (main stored env).sent = true)
    (hput : env.kvPut = KvPutNet.done code)
    (hcode : successStatus code) :
    get_kv_state (resolveKvGet (main stored env).stored KvGetBehavior.healthy) =
      env.today := by
  have hstore : (main stored env).stored = env.today := by
    by_cases h1 : is_trading_time env.weekday env.tod = true
    · by_cases h2 : get_kv_state (resolveKvGet stored env.kvGet) = env.today
      · simp [main, h1, h2] at hsent
      · by_cases h3 : (aggregateStocks env).isEmpty = true
        · simp [main, h1, h2, h3] at hsent
        · by_cases h4 : (send_wecom_message (aggregateStocks env) env.wecomNet).1 = true
          · simp [main, h1, h2, h3, h4, applyKvPut, hput, hcode]
          · simp [main, h1, h2, h3, h4] at hsent
    · simp [main, h1] at hsent
  rw [hstore, get_kv_state_healthy]

/-- Claim C6 (amended) witness: the fault-free run writes 2024-05-01
and a healthy read afterwards returns it. -/
theorem roundtrip_amended_witness :
    get_kv_state (resolveKvGet (main "" envHappy).stored KvGetBehavior.healthy) =
      envHappy.today :=
  roundtrip_amended "" envHappy 200 (by decide) rfl (by decide)

end StockNotifier
